import Mathlib

/-!
Shallow embedding of `examples/generate_sample_report.py`, a script that
synthesizes a fake unused-cloud-resource report and writes it out as one JSON
document.

Modelling conventions:
* Python's global PRNG (`random.*`, `uuid.uuid4`) is modelled by an `Oracle`,
  an infinite stream of natural numbers; each primitive draw consumes one
  stream position.  A computation is a state monad over the stream position
  that may fail (`Option`), failure modelling a raised Python exception
  (`ValueError` from `random.sample`, `KeyError` from a dict index).
* Python floats are modelled as exact rationals (`Rat`); float literals such
  as `30.44` denote the corresponding exact decimal rational.
* `datetime.datetime.now()` is modelled as an integer day counter `clock`
  passed in as a parameter; `isoformat` is modelled as `toString` of the day
  count (the report's date strings play no role in any property proved here).
* Python dicts are insertion-ordered association lists; `dictSet` reproduces
  Python's `d[k] = v` (replace in place if the key is present, else append)
  and `dictUpdate` reproduces `d.update(e)`.
-/

namespace SampleReport

/-- Stream of random values driving every random draw of the script. -/
def Oracle : Type := Nat → Nat

/-- Randomized computation: reads the oracle, advances the stream position,
and may fail (a raised Python exception). -/
def Gen (α : Type) : Type := Oracle → Nat → Option (α × Nat)

namespace Gen

def pureG {α : Type} (a : α) : Gen α := fun _ i => some (a, i)

def bindG {α β : Type} (x : Gen α) (f : α → Gen β) : Gen β := fun o i =>
  match x o i with
  | none => none
  | some (a, j) => f a o j

instance : Monad Gen where
  pure := pureG
  bind := bindG

theorem pure_def {α : Type} (a : α) : (pure a : Gen α) = pureG a := rfl

theorem bind_def {α β : Type} (x : Gen α) (f : α → Gen β) :
    (x >>= f) = bindG x f := rfl

theorem bindG_eq_some {α β : Type} {x : Gen α} {f : α → Gen β} {o : Oracle}
    {i : Nat} {r : β × Nat} :
    bindG x f o i = some r ↔ ∃ a j, x o i = some (a, j) ∧ f a o j = some r := by
  unfold bindG
  cases h : x o i with
  | none => simp
  | some p => cases p with
    | mk a j =>
      constructor
      · intro hr
        exact ⟨a, j, rfl, hr⟩
      · rintro ⟨a', j', ha, hr⟩
        cases ha
        exact hr

theorem pureG_eq_some {α : Type} {a : α} {o : Oracle} {i : Nat}
    {r : α × Nat} : pureG a o i = some r ↔ r = (a, i) := by
  unfold pureG
  constructor
  · intro h
    cases h
    rfl
  · intro h
    cases h
    rfl

end Gen

open Gen

/-- Python `random.randint(lo, hi)` on naturals: a uniform draw from `[lo, hi]`
(the script only calls it with `lo ≤ hi`). -/
def randNat (lo hi : Nat) : Gen Nat := fun o i =>
  some (lo + o i % (hi - lo + 1), i + 1)

/-- Value drawn by `random.randint(lo, hi)` on integers at stream position `i`. -/
def randIntVal (lo hi : Int) (o : Oracle) (i : Nat) : Int :=
  lo + ((o i % (hi - lo + 1).toNat : Nat) : Int)

/-- Python `random.randint(lo, hi)` on integers (used for `randint(-1, 3)`). -/
def randInt (lo hi : Int) : Gen Int := fun o i =>
  some (randIntVal lo hi o i, i + 1)

/-- Python `random.uniform(a, b)`: a rational draw from `[a, b]`. -/
def uniformQ (a b : Rat) : Gen Rat := fun o i =>
  some (a + ((o i % 1000001 : Nat) : Rat) / 1000000 * (b - a), i + 1)

/-- Python `random.choice(l)`: uniform element of `l`; raises (`none`) on an empty
list, as in Python. -/
def choice {α : Type} (l : List α) : Gen α := fun o i =>
  (l[o i % l.length]?).map fun a => (a, i + 1)

/-- Selection loop of `random.sample`: draw `k` distinct elements, removing
each chosen element before the next draw. -/
def sampleAux {α : Type} : Nat → List α → Gen (List α)
  | 0, _ => fun _ i => some ([], i)
  | k + 1, l => fun o i =>
    (l[o i % l.length]?).bind fun a =>
      (sampleAux k (l.eraseIdx (o i % l.length)) o (i + 1)).map fun p =>
        (a :: p.1, p.2)

/-- Python `random.sample(l, k)`: `k` distinct elements of `l`; raises `ValueError`
(`none`) when `k > l.length`, as in Python. -/
def sample {α : Type} (l : List α) (k : Nat) : Gen (List α) := fun o i =>
  if k ≤ l.length then sampleAux k l o i else none

/-- First-occurrence lookup in an insertion-ordered dict. -/
def dlookup {β : Type} : List (String × β) → String → Option β
  | [], _ => none
  | (k', v) :: d, k => if k' = k then some v else dlookup d k

/-- Python `d[k] = v` on an insertion-ordered dict: replace the value in
place when the key is present, append otherwise. -/
def dictSet {β : Type} : List (String × β) → String → β → List (String × β)
  | [], k, v => [(k, v)]
  | (k', v') :: d, k, v =>
    if k' = k then (k', v) :: d else (k', v') :: dictSet d k v

/-- Python `d.update(e)`: assign every entry of `e` into `d` in order. -/
def dictUpdate {β : Type} (d e : List (String × β)) : List (String × β) :=
  e.foldl (fun acc p => dictSet acc p.1 p.2) d

/-- Python `d[k]` as a computation: `KeyError` (`none`) when absent. -/
def dictIndex {β : Type} (d : List (String × β)) (k : String) : Gen β :=
  fun _ i => (dlookup d k).map fun v => (v, i)

/-- JSON-like values stored in the generated report. -/
inductive JVal : Type where
  | str (s : String)
  | int (n : Int)
  | rat (q : Rat)
  | bool (b : Bool)
  | arr (l : List JVal)
  | obj (l : List (String × JVal))

instance : Inhabited JVal := ⟨JVal.str ""⟩

/-- Dict access `details.get(k, dflt)` where the caller's default is a string. -/
def getJ (d : List (String × JVal)) (k : String) (dflt : JVal) : JVal :=
  (dlookup d k).getD dflt

/-- Python `float(x)` on a stored JSON value (only numeric values are reachable in
the generated data; `float(True)` is `1.0` in Python). -/
def jToRat (v : JVal) (dflt : Rat) : Rat :=
  match v with
  | JVal.int n => (n : Rat)
  | JVal.rat q => q
  | JVal.bool b => if b then 1 else 0
  | _ => dflt

/-- Python `int(x)` on a stored JSON value (only integer values are reachable in
the generated data). -/
def jToInt (v : JVal) (dflt : Int) : Int :=
  match v with
  | JVal.int n => n
  | JVal.bool b => if b then 1 else 0
  | _ => dflt

/-- Nested dict access: `d.get(k, ...)` followed by a `.get` on the nested dict. -/
def getFromObj (v : JVal) (k : String) (dflt : JVal) : JVal :=
  match v with
  | JVal.obj l => getJ l k dflt
  | _ => dflt

/-- Rate-table lookup `rates.get(key, dflt)` where the key is a stored JSON
value: a non-string never equals a string dict key, so it hits the default. -/
def ratesGet (rates : List (String × Rat)) (v : JVal) (dflt : Rat) : Rat :=
  match v with
  | JVal.str s => (dlookup rates s).getD dflt
  | _ => dflt

/-- Python `round(x, 2)` modelled with round-to-nearest on rationals (the
rounding mode is irrelevant to every property proved here). -/
def round2 (q : Rat) : Rat := ((round (q * 100) : Int) : Rat) / 100

/-- Python `round(x, 1)`. -/
def round1 (q : Rat) : Rat := ((round (q * 10) : Int) : Rat) / 10

/-- Python `int(x)` on a float: truncation toward zero. -/
def pyInt (q : Rat) : Int := if 0 ≤ q then ⌊q⌋ else ⌈q⌉

/-- Python `resource_type.lower().replace(' ', '-')`. -/
def pyIdent (t : String) : String := (t.toLower).replace " " "-"

/-- Hexadecimal format of width 8: hexadecimal digits padded to width 8. -/
def hex08 (n : Nat) : String :=
  let s := String.mk (Nat.toDigits 16 n)
  String.mk (List.replicate (8 - s.length) '0') ++ s

/-- Model of `uuid.uuid4().hex[:8]`, modelled as eight hex characters drawn from the
oracle. -/
def uuidHex8 : Gen String := fun o i => some ((hex08 (o i)).take 8, i + 1)

/-- Python `str(n).zfill(2)`. -/
def zfill2 (n : Nat) : String :=
  if n < 10 then "0" ++ toString n else toString n

/-- Date string `(now - timedelta(days=d)).isoformat()` under the integer-day clock. -/
def isoAgo (clock d : Int) : String := toString (clock - d)

/-- Date string `(now + timedelta(days=d)).isoformat()` under the integer-day clock. -/
def isoAhead (clock d : Int) : String := toString (clock + d)

/-! ### Data structures of the generated report -/

/-- The five cost periods of a resource's `costs` dict. -/
structure Costs where
  hourly : Rat
  daily : Rat
  monthly : Rat
  yearly : Rat
  lifetime : Rat
  deriving DecidableEq, Inhabited

/-- Initial value of the `costs` dict in `calculate_resource_costs`. -/
def zeroCosts : Costs := ⟨0, 0, 0, 0, 0⟩

/-- One record of the `UnusedResources` list (dict literal at lines 403-415
of the script), fields in insertion order. -/
structure Resource where
  id : String
  name : String
  type : String
  account_id : String
  account_name : String
  region : String
  last_used : String
  estimated_monthly_savings : Rat
  reasons : List String
  details : List (String × JVal)
  costs : Costs
  deriving Inhabited

/-- One entry of `CostBreakdown` (the per-type dict created at lines
445-452), fields in insertion order. -/
structure CostEntry where
  type : String
  hourly : Rat
  daily : Rat
  monthly : Rat
  yearly : Rat
  lifetime : Rat
  deriving Inhabited

/-- The `data` dict assembled by `generate_sample_data`, with its six
top-level keys as typed fields. -/
structure Data where
  scanMetrics : List (String × JVal)
  accountsAndRegions : List (String × List String)
  accountNames : List (String × String)
  unusedResources : List Resource
  costBreakdown : List CostEntry
  totalCosts : Costs
  deriving Inhabited

/-! ### Embeddings of the script's functions -/

/-- Embedding of `generate_resource_name`. -/
def generate_resource_name (resource_type : String) : Gen String :=
  if resource_type = "EC2 Instance" then pure "app-server"
  else if resource_type = "RDS Instance" then do
    let engine ← choice ["mysql", "postgres", "aurora-postgresql"]
    pure (engine ++ "-db")
  else if resource_type = "DynamoDB Table" then pure "user-data"
  else if resource_type = "EBS Volume" then pure "data-volume"
  else if resource_type = "EBS Snapshot" then pure "backup"
  else if resource_type = "Elastic IP" then pure "static-ip"
  else if resource_type = "ELB" then pure "load-balancer"
  else if resource_type = "IAM Role" then pure "service-role"
  else if resource_type = "IAM User" then pure "system-user"
  else if resource_type = "OpenSearch Domain" then pure "search-cluster"
  else pure "resource"

/-- Per-type reason lists of `generate_resource_reasons` (the `if`/`elif`
chain building `reasons`), given the already-drawn common metrics; performs
the per-branch extra draws. -/
def reasonsFor (resource_type : String) (days_ago : Nat)
    (cpu_util memory_util network_util : Rat) : Gen (List String) :=
  if resource_type = "EC2 Instance" then
    pure ["Low CPU utilization (average " ++ toString cpu_util ++ "%) in the last " ++ toString days_ago ++ " days",
      "Low memory utilization (average " ++ toString memory_util ++ "%)",
      "Minimal network traffic (" ++ toString network_util ++ " KB/s average)"]
  else if resource_type = "RDS Instance" then do
    let connections ← randNat 0 5
    let u ← uniformQ 5 20
    let storage_used := round1 u
    pure ["Low connection count (average " ++ toString connections ++ " active connections/day)",
      "Low storage utilization (" ++ toString storage_used ++ "% used)",
      "Minimal query activity in the last " ++ toString days_ago ++ " days"]
  else if resource_type = "DynamoDB Table" then do
    let u1 ← uniformQ 0.1 2
    let read_capacity := round2 u1
    let u2 ← uniformQ 0.1 1
    let write_capacity := round2 u2
    pure ["Low read capacity utilization (" ++ toString read_capacity ++ "% of provisioned)",
      "Low write capacity utilization (" ++ toString write_capacity ++ "% of provisioned)",
      "No table updates in past month"]
  else if resource_type = "EBS Volume" then do
    let iops ← randNat 1 10
    pure ["Low I/O activity (average " ++ toString iops ++ " IOPS)",
      "No snapshot created",
      "Not attached to any active instance"]
  else if resource_type = "EBS Snapshot" then do
    let age ← randNat 180 365
    pure ["Snapshot is " ++ toString age ++ " days old",
      "Source volume no longer exists",
      "Multiple redundant snapshots exist"]
  else if resource_type = "Elastic IP" then
    pure ["Not associated with any running instance",
      "No network traffic in " ++ toString days_ago ++ " days",
      "No DNS records pointing to this IP"]
  else if resource_type = "ELB" then do
    let requests ← randNat 1 10
    pure ["Low request count (average " ++ toString requests ++ " requests/minute)",
      "No healthy backend instances",
      "Minimal network traffic (" ++ toString network_util ++ " KB/s average)"]
  else if resource_type = "IAM Role" then
    pure ["No API calls in the last " ++ toString days_ago ++ " days",
      "No attached policies",
      "No services using this role"]
  else if resource_type = "IAM User" then
    pure ["No console or API activity in " ++ toString days_ago ++ " days",
      "No attached policies",
      "User has never logged in"]
  else if resource_type = "OpenSearch Domain" then do
    let search_requests ← randNat 1 5
    let u ← uniformQ 0.1 2
    let index_size := round2 u
    pure ["Low search traffic (average " ++ toString search_requests ++ " requests/minute)",
      "Small index size (" ++ toString index_size ++ " GB)",
      "No index updates in past month"]
  else pure []

/-- Embedding of `generate_resource_reasons` (the script always calls it
with the default `days_ago=180`): draw the common metrics, build the
per-type reason list, then `random.sample(reasons, random.randint(2, 3))`. -/
def generate_resource_reasons (resource_type : String) (days_ago : Nat) : Gen (List String) := do
  let u1 ← uniformQ 1 5
  let cpu_util := round2 u1
  let u2 ← uniformQ 1 8
  let memory_util := round2 u2
  let u3 ← uniformQ 0.1 2
  let network_util := round2 u3
  let reasons ← reasonsFor resource_type days_ago cpu_util memory_util network_util
  let k ← randNat 2 3
  sample reasons k

/-- Embedding of `generate_resource_details`; draws happen in the source's
evaluation order within each branch. -/
def generate_resource_details (clock : Int) (resource_type : String) : Gen (List (String × JVal)) :=
  if resource_type = "EC2 Instance" then do
    let instance_type ← choice ["t3.micro", "t3.small", "t3.medium", "t3.large", "r5.xlarge"]
    let state ← choice ["running", "stopped"]
    let launch_days ← randNat 30 365
    let name_tag ← generate_resource_name resource_type
    let env ← choice ["dev", "stg", "prod"]
    let team ← choice ["platform", "backend", "frontend"]
    let sg1 ← uuidHex8
    let sg2 ← uuidHex8
    let eni ← uuidHex8
    let p1 ← randNat 1 255
    let p2 ← randNat 1 255
    let q1 ← randNat 1 255
    let q2 ← randNat 1 255
    let q3 ← randNat 1 255
    pure [("InstanceType", .str instance_type),
      ("State", .str state),
      ("LaunchTime", .str (isoAgo clock (launch_days : Int))),
      ("Tags", .arr [
        .obj [("Key", .str "Name"), ("Value", .str (name_tag ++ "-01"))],
        .obj [("Key", .str "Environment"), ("Value", .str env.toLower)],
        .obj [("Key", .str "Team"), ("Value", .str team)]]),
      ("SecurityGroups", .arr [
        .obj [("GroupId", .str ("sg-" ++ sg1)), ("GroupName", .str "default")],
        .obj [("GroupId", .str ("sg-" ++ sg2)), ("GroupName", .str "app-server")]]),
      ("NetworkInterfaces", .arr [
        .obj [("NetworkInterfaceId", .str ("eni-" ++ eni)),
          ("PrivateIpAddress", .str ("10.0." ++ toString p1 ++ "." ++ toString p2)),
          ("PublicIpAddress", .str ("54." ++ toString q1 ++ "." ++ toString q2 ++ "." ++ toString q3))]])]
  else if resource_type = "RDS Instance" then do
    let db_class ← choice ["db.t3.micro", "db.t3.small", "db.t3.medium", "db.r5.large"]
    let engine ← choice ["mysql", "postgres", "aurora"]
    let idn ← randNat 10000000 99999999
    let endpoint_hex ← uuidHex8
    let storage ← randNat 50 1000
    let retention ← choice ([7, 14, 30, 35] : List Int)
    let vpcsg ← uuidHex8
    let multi_az ← choice [true, false]
    pure [("DBInstanceClass", .str db_class),
      ("Engine", .str engine),
      ("EngineVersion", .str "8.0.28"),
      ("DBInstanceIdentifier", .str (pyIdent resource_type ++ "-" ++ hex08 idn)),
      ("DBInstanceStatus", .str "available"),
      ("MasterUsername", .str "admin"),
      ("Endpoint", .obj [
        ("Address", .str ("db-" ++ endpoint_hex ++ ".cluster-xyz.region.rds.amazonaws.com")),
        ("Port", .int (if "postgres".toList <:+: engine.toList then 5432 else 3306))]),
      ("AllocatedStorage", .int (storage : Int)),
      ("PreferredBackupWindow", .str "03:00-04:00"),
      ("BackupRetentionPeriod", .int retention),
      ("VpcSecurityGroups", .arr [
        .obj [("VpcSecurityGroupId", .str ("sg-" ++ vpcsg)), ("Status", .str "active")]]),
      ("MultiAZ", .bool multi_az),
      ("PubliclyAccessible", .bool false),
      ("StorageEncrypted", .bool true),
      ("PerformanceInsights", .obj [("Enabled", .bool true), ("RetentionPeriod", .int 7)])]
  else if resource_type = "EBS Volume" then do
    let size ← randNat 8 100
    let volume_type ← choice ["gp2", "gp3", "io1"]
    let idn ← randNat 10000000 99999999
    let iops ← randNat 100 3000
    pure [("Size", .int (size : Int)),
      ("VolumeType", .str volume_type),
      ("State", .str "available"),
      ("VolumeId", .str (pyIdent resource_type ++ "-" ++ hex08 idn)),
      ("Encrypted", .bool true),
      ("Iops", .int (iops : Int)),
      ("MultiAttach", .bool false)]
  else if resource_type = "EBS Snapshot" then do
    let volume_size ← randNat 8 100
    let start_days ← randNat 30 365
    let idn ← randNat 10000000 99999999
    pure [("VolumeSize", .int (volume_size : Int)),
      ("State", .str "completed"),
      ("StartTime", .str (isoAgo clock (start_days : Int))),
      ("VolumeId", .str (pyIdent resource_type ++ "-" ++ hex08 idn))]
  else if resource_type = "DynamoDB Table" then do
    let read_cap ← randNat 1 3
    let write_cap ← randNat 1 2
    let tname ← generate_resource_name resource_type
    let created_days ← randNat 30 365
    let table_size ← randNat 1000 1000000
    let item_count ← randNat 0 1000
    let stream_enabled ← choice [true, false]
    pure [("ProvisionedThroughput", .obj [
        ("ReadCapacityUnits", .int (read_cap : Int)),
        ("WriteCapacityUnits", .int (write_cap : Int))]),
      ("TableStatus", .str "ACTIVE"),
      ("TableName", .str (tname ++ "-01")),
      ("CreationDateTime", .str (isoAgo clock (created_days : Int))),
      ("TableSizeBytes", .int (table_size : Int)),
      ("ItemCount", .int (item_count : Int)),
      ("StreamEnabled", .bool stream_enabled)]
  else if resource_type = "IAM User" then do
    let create_days ← randNat 30 365
    let pwd_days ← randNat 30 365
    let groups ← randNat 0 3
    pure [("CreateDate", .str (isoAgo clock (create_days : Int))),
      ("PasswordLastUsed", .str (isoAgo clock (pwd_days : Int))),
      ("Groups", .int (groups : Int))]
  else if resource_type = "IAM Role" then do
    let create_days ← randNat 30 365
    let used_days ← randNat 30 365
    let attached ← randNat 1 5
    pure [("CreateDate", .str (isoAgo clock (create_days : Int))),
      ("LastUsedDate", .str (isoAgo clock (used_days : Int))),
      ("AttachedPolicies", .int (attached : Int))]
  else if resource_type = "Elastic IP" then do
    let a1 ← randNat 0 255
    let a2 ← randNat 0 255
    let a3 ← randNat 0 255
    let alloc ← randNat 10000000 99999999
    pure [("PublicIp", .str ("54." ++ toString a1 ++ "." ++ toString a2 ++ "." ++ toString a3)),
      ("AllocationId", .str ("eipalloc-" ++ hex08 alloc)),
      ("Domain", .str "vpc")]
  else if resource_type = "OpenSearch Domain" then do
    let instance_type ← choice ["t3.small.search", "t3.medium.search", "r5.large.search"]
    let instance_count ← randNat 1 3
    let dedicated ← choice [true, false]
    pure [("InstanceType", .str instance_type),
      ("EngineVersion", .str "OpenSearch_1.0"),
      ("ClusterConfig", .obj [
        ("InstanceCount", .int (instance_count : Int)),
        ("DedicatedMasterEnabled", .bool dedicated)])]
  else pure []

/-- Embedding of `calculate_scan_metrics`. -/
def calculate_scan_metrics (clock : Int) (total_resources : Int) : Gen (List (String × JVal)) := do
  let peak_workers ← randNat 7 10
  let worker_utilization : Rat := ((peak_workers : Rat) / 10) * 100
  let tasks_per_second ← uniformQ 5 8
  let total_scans : Int := pyInt (tasks_per_second * 60)
  let failed_scans ← randNat 1 3
  let completed_scans : Int := total_scans - (failed_scans : Int)
  let avg_execution_time_ms : Rat := (60 * 1000 : Rat) / (total_scans : Rat)
  let total_cost ← uniformQ 5000 15000
  pure [("CompletedAt", .str (isoAhead clock 365)),
    ("TotalResources", .int total_resources),
    ("ResourcesByType", .obj []),
    ("TotalCost", .rat total_cost),
    ("TotalScans", .int total_scans),
    ("CompletedScans", .int completed_scans),
    ("FailedScans", .int (failed_scans : Int)),
    ("TasksPerSecond", .rat tasks_per_second),
    ("AvgExecutionTimeMs", .rat (round2 avg_execution_time_ms)),
    ("WorkerUtilization", .rat worker_utilization),
    ("PeakWorkers", .int (peak_workers : Int)),
    ("MaxWorkers", .int 10),
    ("TotalRunTime", .str "1m0s")]

/-- EC2 rate table of `calculate_resource_costs`. -/
def ec2_hourly_rates : List (String × Rat) :=
  [("t3.micro", 0.0104), ("t3.small", 0.0208), ("t3.medium", 0.0416),
   ("t3.large", 0.0832), ("r5.xlarge", 0.252), ("r5.2xlarge", 0.504),
   ("r5.4xlarge", 1.008)]

/-- RDS rate table of `calculate_resource_costs`. -/
def rds_hourly_rates : List (String × Rat) :=
  [("db.t3.micro", 0.017), ("db.t3.small", 0.034), ("db.t3.medium", 0.068),
   ("db.r5.large", 0.29), ("db.r5.xlarge", 0.58)]

/-- OpenSearch rate table of `calculate_resource_costs`. -/
def opensearch_hourly_rates : List (String × Rat) :=
  [("t3.small.search", 0.036), ("t3.medium.search", 0.073), ("r5.large.search", 0.186)]

/-- Per-type branch of `calculate_resource_costs`: the hourly, daily and
monthly fields it assigns; yearly and lifetime keep their initial `0.0`.
Types without a branch (among them `IAM User` and `IAM Role`) keep all five
fields at `0.0`. -/
def baseCosts (resource_type : String) (details : List (String × JVal)) : Costs :=
  if resource_type = "EC2 Instance" then
    let instance_type := getJ details "InstanceType" (.str "t3.micro")
    let hourly := ratesGet ec2_hourly_rates instance_type 0.0416 / 2
    let daily := hourly * 24
    let monthly := daily * 30.44
    { zeroCosts with hourly := hourly, daily := daily, monthly := monthly }
  else if resource_type = "RDS Instance" then
    let instance_class := getJ details "DBInstanceClass" (.str "db.t3.medium")
    let hourly := ratesGet rds_hourly_rates instance_class 0.068 / 3
    let daily := hourly * 24
    let monthly := daily * 30.44
    { zeroCosts with hourly := hourly, daily := daily, monthly := monthly }
  else if resource_type = "EBS Volume" then
    let size_gb := jToRat (getJ details "Size" (.int 20)) 20
    let volume_type := getJ details "VolumeType" (.str "gp3")
    let price_per_gb : Rat := match volume_type with
      | JVal.str "gp2" => 0.10
      | _ => 0.08
    let monthly := size_gb * price_per_gb
    let daily := monthly / 30.44
    let hourly := daily / 24
    { zeroCosts with hourly := hourly, daily := daily, monthly := monthly }
  else if resource_type = "EBS Snapshot" then
    let size_gb := jToRat (getJ details "VolumeSize" (.int 20)) 20
    let monthly := size_gb * 0.05
    let daily := monthly / 30.44
    let hourly := daily / 24
    { zeroCosts with hourly := hourly, daily := daily, monthly := monthly }
  else if resource_type = "Elastic IP" then
    let hourly : Rat := 0.005
    let daily := hourly * 24
    let monthly := daily * 30.44
    { zeroCosts with hourly := hourly, daily := daily, monthly := monthly }
  else if resource_type = "DynamoDB Table" then
    let read_capacity := jToInt (getFromObj (getJ details "ProvisionedThroughput" (.obj [])) "ReadCapacityUnits" (.int 5)) 5
    let write_capacity := jToInt (getFromObj (getJ details "ProvisionedThroughput" (.obj [])) "WriteCapacityUnits" (.int 5)) 5
    let hourly := (read_capacity : Rat) * 0.00013 + (write_capacity : Rat) * 0.00065
    let daily := hourly * 24
    let monthly := daily * 30.44
    { zeroCosts with hourly := hourly, daily := daily, monthly := monthly }
  else if resource_type = "ELB" then
    let hourly : Rat := 0.0225
    let daily := hourly * 24
    let monthly := daily * 30.44
    { zeroCosts with hourly := hourly, daily := daily, monthly := monthly }
  else if resource_type = "OpenSearch Domain" then
    let instance_type := getJ details "InstanceType" (.str "t3.small.search")
    let hourly := ratesGet opensearch_hourly_rates instance_type 0.036 / 2
    let daily := hourly * 24
    let monthly := daily * 30.44
    { zeroCosts with hourly := hourly, daily := daily, monthly := monthly }
  else zeroCosts

/-- Embedding of `calculate_resource_costs`: the per-type base costs, then
`yearly = monthly * 12` and `lifetime = yearly * randint(-1, 3)`. -/
def calculate_resource_costs (resource_type : String) (details : List (String × JVal)) : Gen Costs := do
  let c := baseCosts resource_type details
  let yearly := c.monthly * 12
  let r ← randInt (-1) 3
  pure { c with yearly := yearly, lifetime := yearly * (r : Rat) }

/-- Fixed region catalog of `generate_random_regions`. -/
def all_regions : List String :=
  ["us-east-1", "us-east-2", "us-west-1", "us-west-2", "eu-central-1",
   "eu-west-1", "ap-southeast-1"]

/-- Embedding of `generate_random_regions`. -/
def generate_random_regions : Gen (List String) := do
  let k ← randNat 3 7
  sample all_regions k

/-- The fixed ten-element resource-type catalog of `generate_sample_data`. -/
def resource_types : List String :=
  ["EC2 Instance", "RDS Instance", "ELB", "EBS Volume", "EBS Snapshot",
   "DynamoDB Table", "IAM User", "IAM Role", "Elastic IP", "OpenSearch Domain"]

/-- Lines 419-422 of the script: bump the per-type count inside
`data["ScanMetrics"]["ResourcesByType"]` (that key is set at initialization
and never removed before this point, and always holds a dict of ints). -/
def bumpRBT (sm : List (String × JVal)) (resource_type : String) : List (String × JVal) :=
  let rbt := match dlookup sm "ResourcesByType" with
    | some (JVal.obj l) => l
    | _ => []
  let rbt := if (dlookup rbt resource_type).isSome then rbt
    else dictSet rbt resource_type (.int 0)
  let rbt := dictSet rbt resource_type (.int (jToInt (getJ rbt resource_type (.int 0)) 0 + 1))
  dictSet sm "ResourcesByType" (.obj rbt)

/-- One iteration of the inner generation loop (lines 399-415): draw the
account, region and details, then build the resource record, evaluating the
record's fields in the source's order. -/
def genOneResource (clock : Int) (accounts : List (String × List String))
    (account_names : List (String × String)) (resource_type : String) (i : Nat) : Gen Resource := do
  let account_id ← choice (accounts.map Prod.fst)
  let regions ← dictIndex accounts account_id
  let region ← choice regions
  let details ← generate_resource_details clock resource_type
  let idn ← randNat 10000000 99999999
  let rname ← generate_resource_name resource_type
  let account_name ← dictIndex account_names account_id
  let last_used_days ← randNat 30 180
  let savings ← uniformQ 100 1000
  let reasons ← generate_resource_reasons resource_type 180
  let costs ← calculate_resource_costs resource_type details
  pure {
    id := pyIdent resource_type ++ "-" ++ hex08 idn
    name := rname ++ "-" ++ zfill2 (i + 1)
    type := resource_type
    account_id := account_id
    account_name := account_name
    region := region
    last_used := isoAgo clock (last_used_days : Int)
    estimated_monthly_savings := round2 savings
    reasons := reasons
    details := details
    costs := costs }

/-- Inner loop `for i in range(num_resources)`: generate and append `k` more
resources of the given type, bumping the per-type count after each one. -/
def genInner (clock : Int) (accounts : List (String × List String))
    (account_names : List (String × String)) (resource_type : String) :
    Nat → Nat → List Resource → List (String × JVal) → Gen (List Resource × List (String × JVal))
  | 0, _, res, sm => pure (res, sm)
  | k + 1, i, res, sm => do
    let r ← genOneResource clock accounts account_names resource_type i
    genInner clock accounts account_names resource_type k (i + 1) (res ++ [r]) (bumpRBT sm resource_type)

/-- Outer loop `for resource_type in resource_types`: between 5 and 15
resources of each type. -/
def genLoop (clock : Int) (accounts : List (String × List String))
    (account_names : List (String × String)) :
    List String → List Resource → List (String × JVal) → Gen (List Resource × List (String × JVal))
  | [], res, sm => pure (res, sm)
  | t :: ts, res, sm => do
    let num_resources ← randNat 5 15
    let p ← genInner clock accounts account_names t num_resources 0 res sm
    genLoop clock accounts account_names ts p.1 p.2

/-- Componentwise addition of a resource's costs into a breakdown entry
(the inner `for period in [...]` loop at lines 455-457). -/
def addPeriods (e : CostEntry) (c : Costs) : CostEntry :=
  { e with
    hourly := e.hourly + c.hourly
    daily := e.daily + c.daily
    monthly := e.monthly + c.monthly
    yearly := e.yearly + c.yearly
    lifetime := e.lifetime + c.lifetime }

/-- Componentwise addition into the running `total_costs` dict. -/
def addTotals (t : Costs) (c : Costs) : Costs :=
  { hourly := t.hourly + c.hourly
    daily := t.daily + c.daily
    monthly := t.monthly + c.monthly
    yearly := t.yearly + c.yearly
    lifetime := t.lifetime + c.lifetime }

/-- One step of the grouping loop at lines 442-458: create a zeroed entry
for a type not seen before, then add the resource's five period costs to its
type's entry and to the running totals. -/
def breakdownStep (acc : List CostEntry × Costs) (r : Resource) : List CostEntry × Costs :=
  let bd := if acc.1.any (fun e => e.type == r.type) then acc.1
    else acc.1 ++ [⟨r.type, 0, 0, 0, 0, 0⟩]
  let bd := bd.map fun e => if e.type == r.type then addPeriods e r.costs else e
  (bd, addTotals acc.2 r.costs)

/-- Lines 424-462 of `generate_sample_data`: set `TotalResources`, merge in
the result of `calculate_scan_metrics` with Python's `dict.update`, group
costs by resource type, and assemble the final document. -/
def finalizeData (clock : Int) (accounts : List (String × List String))
    (account_names : List (String × String)) (resources : List Resource)
    (sm : List (String × JVal)) : Gen Data := do
  let sm := dictSet sm "TotalResources" (.int (resources.length : Int))
  let total_resources := jToInt (getJ sm "TotalResources" (.int 0)) 0
  let scan_metrics ← calculate_scan_metrics clock total_resources
  let sm := dictUpdate sm scan_metrics
  let grouped := resources.foldl breakdownStep ([], zeroCosts)
  pure {
    scanMetrics := sm
    accountsAndRegions := accounts
    accountNames := account_names
    unusedResources := resources
    costBreakdown := grouped.1
    totalCosts := grouped.2 }

/-- Embedding of `generate_sample_data`. -/
def generate_sample_data (clock : Int) : Gen Data := do
  let r1 ← generate_random_regions
  let r2 ← generate_random_regions
  let r3 ← generate_random_regions
  let accounts : List (String × List String) :=
    [("123456789012", r1), ("234567890123", r2), ("345678901234", r3)]
  let account_names : List (String × String) :=
    [("123456789012", "Production"), ("234567890123", "Staging"), ("345678901234", "Development")]
  let sm : List (String × JVal) :=
    [("CompletedAt", .str (isoAhead clock 365)),
     ("TotalResources", .int 0),
     ("ResourcesByType", .obj [])]
  let p ← genLoop clock accounts account_names resource_types [] sm
  finalizeData clock accounts account_names p.1 p.2

/-- JSON form of a `costs` dict. -/
def Costs.toJ (c : Costs) : JVal :=
  .obj [("hourly", .rat c.hourly), ("daily", .rat c.daily),
    ("monthly", .rat c.monthly), ("yearly", .rat c.yearly),
    ("lifetime", .rat c.lifetime)]

/-- JSON form of a `CostBreakdown` entry, keys in insertion order. -/
def CostEntry.toJ (e : CostEntry) : JVal :=
  .obj [("type", .str e.type), ("hourly", .rat e.hourly), ("daily", .rat e.daily),
    ("monthly", .rat e.monthly), ("yearly", .rat e.yearly), ("lifetime", .rat e.lifetime)]

/-- JSON form of an `UnusedResources` record, keys in insertion order. -/
def Resource.toJ (r : Resource) : JVal :=
  .obj [("id", .str r.id), ("name", .str r.name), ("type", .str r.type),
    ("account_id", .str r.account_id), ("account_name", .str r.account_name),
    ("region", .str r.region), ("last_used", .str r.last_used),
    ("estimated_monthly_savings", .rat r.estimated_monthly_savings),
    ("reasons", .arr (r.reasons.map JVal.str)),
    ("details", .obj r.details), ("costs", r.costs.toJ)]

/-- The JSON document `json.dump` serializes: the `data` dict with its six
top-level keys in insertion order. -/
def Data.toDoc (d : Data) : List (String × JVal) :=
  [("ScanMetrics", .obj d.scanMetrics),
   ("AccountsAndRegions", .obj (d.accountsAndRegions.map fun p => (p.1, .arr (p.2.map JVal.str)))),
   ("AccountNames", .obj (d.accountNames.map fun p => (p.1, .str p.2))),
   ("UnusedResources", .arr (d.unusedResources.map Resource.toJ)),
   ("CostBreakdown", .arr (d.costBreakdown.map CostEntry.toJ)),
   ("TotalCosts", d.totalCosts.toJ)]

/-- Embedding of `main`: run the generator once and serialize its result as
the single document written to the output file.  The file write itself is
outside the embedding; the script attaches no handling, retry or recovery to
it. -/
def main_output (clock : Int) (o : Oracle) : Option (List (String × JVal)) :=
  (generate_sample_data clock o 0).map fun p => p.1.toDoc

/-! ### Totality and basic specifications of the random primitives -/

/-- A generator that never raises, whatever the oracle and start position. -/
def GTotal {α : Type} (x : Gen α) : Prop := ∀ o i, (x o i).isSome = true

theorem gtotal_pure {α : Type} (a : α) : GTotal (pure a : Gen α) := fun _ _ => rfl

theorem gtotal_bind_of {α β : Type} {x : Gen α} {f : α → Gen β} (P : α → Prop)
    (hx : GTotal x) (hP : ∀ o i a j, x o i = some (a, j) → P a)
    (hf : ∀ a, P a → GTotal (f a)) : GTotal (x >>= f) := by
  intro o i
  rw [bind_def]
  unfold bindG
  have hs := hx o i
  cases h : x o i with
  | none => rw [h] at hs; simp at hs
  | some p =>
    obtain ⟨a, j⟩ := p
    exact hf a (hP o i a j h) o j

theorem gtotal_bind {α β : Type} {x : Gen α} {f : α → Gen β}
    (hx : GTotal x) (hf : ∀ a, GTotal (f a)) : GTotal (x >>= f) :=
  gtotal_bind_of (fun _ => True) hx (fun _ _ _ _ _ => trivial) (fun a _ => hf a)

theorem gtotal_randNat (lo hi : Nat) : GTotal (randNat lo hi) := fun _ _ => rfl

theorem gtotal_randInt (lo hi : Int) : GTotal (randInt lo hi) := fun _ _ => rfl

theorem gtotal_uniformQ (a b : Rat) : GTotal (uniformQ a b) := fun _ _ => rfl

theorem gtotal_uuidHex8 : GTotal uuidHex8 := fun _ _ => rfl

theorem randNat_eq_some {lo hi : Nat} {o : Oracle} {i a j : Nat}
    (h : randNat lo hi o i = some (a, j)) :
    lo ≤ a ∧ (lo ≤ hi → a ≤ hi) ∧ j = i + 1 := by
  simp only [randNat, Option.some.injEq, Prod.mk.injEq] at h
  obtain ⟨ha, hj⟩ := h
  subst ha
  subst hj
  have hm : o i % (hi - lo + 1) < hi - lo + 1 := Nat.mod_lt _ (Nat.succ_pos _)
  exact ⟨Nat.le_add_right _ _, fun hle => by omega, rfl⟩

theorem randIntVal_bounds (lo hi : Int) (o : Oracle) (i : Nat) (hle : lo ≤ hi) :
    lo ≤ randIntVal lo hi o i ∧ randIntVal lo hi o i ≤ hi := by
  unfold randIntVal
  have h2 : o i % (hi - lo + 1).toNat < (hi - lo + 1).toNat :=
    Nat.mod_lt _ (by omega)
  have h3 : ((o i % (hi - lo + 1).toNat : Nat) : Int) < ((hi - lo + 1).toNat : Int) := by
    exact_mod_cast h2
  have h4 : (0 : Int) ≤ ((o i % (hi - lo + 1).toNat : Nat) : Int) := Int.ofNat_nonneg _
  omega

theorem randInt_eq_some {lo hi : Int} {o : Oracle} {i : Nat} {a : Int} {j : Nat}
    (h : randInt lo hi o i = some (a, j)) : a = randIntVal lo hi o i ∧ j = i + 1 := by
  simp only [randInt, Option.some.injEq, Prod.mk.injEq] at h
  exact ⟨h.1.symm, h.2.symm⟩

theorem choice_eq_some {α : Type} {l : List α} {o : Oracle} {i : Nat} {a : α} {j : Nat}
    (h : choice l o i = some (a, j)) : a ∈ l ∧ j = i + 1 := by
  unfold choice at h
  rw [Option.map_eq_some'] at h
  obtain ⟨b, hb, hba⟩ := h
  simp only [Prod.mk.injEq] at hba
  obtain ⟨rfl, rfl⟩ := hba
  exact ⟨List.getElem?_mem hb, rfl⟩

theorem gtotal_choice {α : Type} {l : List α} (h : l ≠ []) : GTotal (choice l) := by
  intro o i
  unfold choice
  rw [Option.isSome_map']
  have hlt : o i % l.length < l.length := Nat.mod_lt _ (List.length_pos.mpr h)
  simp [List.getElem?_eq_getElem hlt]

theorem sampleAux_isSome {α : Type} :
    ∀ (k : Nat) (l : List α), k ≤ l.length → GTotal (sampleAux k l) := by
  intro k
  induction k with
  | zero => intro l _ o i; rfl
  | succ k ih =>
    intro l hk o i
    unfold sampleAux
    have hlt : o i % l.length < l.length := Nat.mod_lt _ (by omega)
    rw [List.getElem?_eq_getElem hlt, Option.some_bind, Option.isSome_map']
    apply ih
    rw [List.length_eraseIdx, if_pos hlt]
    omega

theorem sampleAux_length {α : Type} :
    ∀ (k : Nat) (l : List α) (o : Oracle) (i : Nat) (res : List α) (j : Nat),
      sampleAux k l o i = some (res, j) → res.length = k := by
  intro k
  induction k with
  | zero =>
    intro l o i res j h
    simp only [sampleAux, Option.some.injEq, Prod.mk.injEq] at h
    rw [← h.1]
    rfl
  | succ k ih =>
    intro l o i res j h
    unfold sampleAux at h
    rw [Option.bind_eq_some] at h
    obtain ⟨a, _, h⟩ := h
    rw [Option.map_eq_some'] at h
    obtain ⟨p, hp, hpe⟩ := h
    simp only [Prod.mk.injEq] at hpe
    obtain ⟨hres, _⟩ := hpe
    rw [← hres, List.length_cons]
    rw [ih (l.eraseIdx (o i % l.length)) o (i + 1) p.1 p.2 (by simpa using hp)]

theorem sample_eq_some_length {α : Type} {l : List α} {k : Nat} {o : Oracle}
    {i : Nat} {res : List α} {j : Nat} (h : sample l k o i = some (res, j)) :
    res.length = k := by
  unfold sample at h
  split at h
  · exact sampleAux_length k l o i res j h
  · exact absurd h (by simp)

theorem gtotal_sample {α : Type} {l : List α} {k : Nat} (h : k ≤ l.length) :
    GTotal (sample l k) := by
  intro o i
  unfold sample
  rw [if_pos h]
  exact sampleAux_isSome k l h o i

theorem gtotal_dictIndex {β : Type} {d : List (String × β)} {k : String}
    (h : (dlookup d k).isSome = true) : GTotal (dictIndex d k) := by
  intro o i
  unfold dictIndex
  rw [Option.isSome_map']
  exact h

theorem dictIndex_eq_some {β : Type} {d : List (String × β)} {k : String}
    {o : Oracle} {i : Nat} {v : β} {j : Nat}
    (h : dictIndex d k o i = some (v, j)) : dlookup d k = some v ∧ j = i := by
  unfold dictIndex at h
  rw [Option.map_eq_some'] at h
  obtain ⟨b, hb, hbe⟩ := h
  simp only [Prod.mk.injEq] at hbe
  obtain ⟨rfl, rfl⟩ := hbe
  exact ⟨hb, rfl⟩

/-! ### Lemmas about ordered dicts -/

theorem dlookup_isSome_of_mem_keys {β : Type} {d : List (String × β)} {k : String}
    (h : k ∈ d.map Prod.fst) : (dlookup d k).isSome = true := by
  induction d with
  | nil => simp at h
  | cons p d ih =>
    obtain ⟨k', v⟩ := p
    simp only [List.map_cons, List.mem_cons] at h
    unfold dlookup
    by_cases hk : k' = k
    · rw [if_pos hk]; rfl
    · rw [if_neg hk]
      apply ih
      cases h with
      | inl h => exact absurd h.symm hk
      | inr h => exact h

theorem dlookup_mem {β : Type} {d : List (String × β)} {k : String} {v : β}
    (h : dlookup d k = some v) : (k, v) ∈ d := by
  induction d with
  | nil => simp [dlookup] at h
  | cons p d ih =>
    obtain ⟨k', v'⟩ := p
    unfold dlookup at h
    by_cases hk : k' = k
    · rw [if_pos hk] at h
      injection h with h
      subst hk
      subst h
      exact List.mem_cons_self _ _
    · rw [if_neg hk] at h
      exact List.mem_cons_of_mem _ (ih h)

theorem dlookup_dictSet_same {β : Type} (d : List (String × β)) (k : String) (v : β) :
    dlookup (dictSet d k v) k = some v := by
  induction d with
  | nil => simp [dictSet, dlookup]
  | cons p d ih =>
    obtain ⟨k', v'⟩ := p
    unfold dictSet
    by_cases hk : k' = k
    · rw [if_pos hk]
      unfold dlookup
      rw [if_pos hk]
    · rw [if_neg hk]
      unfold dlookup
      rw [if_neg hk]
      exact ih

theorem dlookup_dictSet_ne {β : Type} (d : List (String × β)) {k k' : String}
    (h : k' ≠ k) (v : β) : dlookup (dictSet d k' v) k = dlookup d k := by
  induction d with
  | nil => simp [dictSet, dlookup, if_neg h]
  | cons p d ih =>
    obtain ⟨a, b⟩ := p
    unfold dictSet
    by_cases ha : a = k'
    · rw [if_pos ha]
      unfold dlookup
      subst ha
      rw [if_neg h, if_neg h]
    · rw [if_neg ha]
      unfold dlookup
      by_cases hak : a = k
      · rw [if_pos hak, if_pos hak]
      · rw [if_neg hak, if_neg hak]
        exact ih

/-! ### Totality of the embedded functions -/

theorem gtotal_ite {α : Type} {c : Prop} [Decidable c] {x y : Gen α}
    (hx : GTotal x) (hy : GTotal y) : GTotal (if c then x else y) := by
  by_cases h : c
  · rwa [if_pos h]
  · rwa [if_neg h]

theorem gtotal_generate_resource_name (t : String) : GTotal (generate_resource_name t) := by
  unfold generate_resource_name
  repeat'
    first
      | apply gtotal_ite
      | exact gtotal_pure _
      | exact gtotal_bind (gtotal_choice (by simp)) (fun _ => gtotal_pure _)

theorem gtotal_reasonsFor (t : String) (d : Nat) (c m n : Rat) :
    GTotal (reasonsFor t d c m n) := by
  unfold reasonsFor
  repeat'
    first
      | apply gtotal_ite
      | exact gtotal_pure _
      | exact gtotal_randNat _ _
      | exact gtotal_uniformQ _ _
      | apply gtotal_bind
      | intro _

theorem reasonsFor_length {t : String} (ht : t ∈ resource_types) {days_ago : Nat}
    {c m n : Rat} {o : Oracle} {i : Nat} {res : List String} {j : Nat}
    (h : reasonsFor t days_ago c m n o i = some (res, j)) : res.length = 3 := by
  simp only [resource_types, List.mem_cons, List.not_mem_nil, or_false] at ht
  rcases ht with rfl | rfl | rfl | rfl | rfl | rfl | rfl | rfl | rfl | rfl <;>
    (simp [reasonsFor, bind_def, bindG, pure_def, pureG, randNat, uniformQ] at h;
     obtain ⟨hres, -⟩ := h; subst hres; rfl)

theorem gtotal_generate_resource_details (clock : Int) (t : String) :
    GTotal (generate_resource_details clock t) := by
  unfold generate_resource_details
  refine gtotal_ite ?_ (gtotal_ite ?_ (gtotal_ite ?_ (gtotal_ite ?_ (gtotal_ite ?_
    (gtotal_ite ?_ (gtotal_ite ?_ (gtotal_ite ?_ (gtotal_ite ?_ (gtotal_pure _)))))))))
  · refine gtotal_bind (gtotal_choice (by simp)) fun _ => ?_
    refine gtotal_bind (gtotal_choice (by simp)) fun _ => ?_
    refine gtotal_bind (gtotal_randNat _ _) fun _ => ?_
    refine gtotal_bind (gtotal_generate_resource_name _) fun _ => ?_
    refine gtotal_bind (gtotal_choice (by simp)) fun _ => ?_
    refine gtotal_bind (gtotal_choice (by simp)) fun _ => ?_
    refine gtotal_bind gtotal_uuidHex8 fun _ => ?_
    refine gtotal_bind gtotal_uuidHex8 fun _ => ?_
    refine gtotal_bind gtotal_uuidHex8 fun _ => ?_
    refine gtotal_bind (gtotal_randNat _ _) fun _ => ?_
    refine gtotal_bind (gtotal_randNat _ _) fun _ => ?_
    refine gtotal_bind (gtotal_randNat _ _) fun _ => ?_
    refine gtotal_bind (gtotal_randNat _ _) fun _ => ?_
    refine gtotal_bind (gtotal_randNat _ _) fun _ => ?_
    exact gtotal_pure _
  · refine gtotal_bind (gtotal_choice (by simp)) fun _ => ?_
    refine gtotal_bind (gtotal_choice (by simp)) fun _ => ?_
    refine gtotal_bind (gtotal_randNat _ _) fun _ => ?_
    refine gtotal_bind gtotal_uuidHex8 fun _ => ?_
    refine gtotal_bind (gtotal_randNat _ _) fun _ => ?_
    refine gtotal_bind (gtotal_choice (by simp)) fun _ => ?_
    refine gtotal_bind gtotal_uuidHex8 fun _ => ?_
    refine gtotal_bind (gtotal_choice (by simp)) fun _ => ?_
    exact gtotal_pure _
  · refine gtotal_bind (gtotal_randNat _ _) fun _ => ?_
    refine gtotal_bind (gtotal_choice (by simp)) fun _ => ?_
    refine gtotal_bind (gtotal_randNat _ _) fun _ => ?_
    refine gtotal_bind (gtotal_randNat _ _) fun _ => ?_
    exact gtotal_pure _
  · refine gtotal_bind (gtotal_randNat _ _) fun _ => ?_
    refine gtotal_bind (gtotal_randNat _ _) fun _ => ?_
    refine gtotal_bind (gtotal_randNat _ _) fun _ => ?_
    exact gtotal_pure _
  · refine gtotal_bind (gtotal_randNat _ _) fun _ => ?_
    refine gtotal_bind (gtotal_randNat _ _) fun _ => ?_
    refine gtotal_bind (gtotal_generate_resource_name _) fun _ => ?_
    refine gtotal_bind (gtotal_randNat _ _) fun _ => ?_
    refine gtotal_bind (gtotal_randNat _ _) fun _ => ?_
    refine gtotal_bind (gtotal_randNat _ _) fun _ => ?_
    refine gtotal_bind (gtotal_choice (by simp)) fun _ => ?_
    exact gtotal_pure _
  · refine gtotal_bind (gtotal_randNat _ _) fun _ => ?_
    refine gtotal_bind (gtotal_randNat _ _) fun _ => ?_
    refine gtotal_bind (gtotal_randNat _ _) fun _ => ?_
    exact gtotal_pure _
  · refine gtotal_bind (gtotal_randNat _ _) fun _ => ?_
    refine gtotal_bind (gtotal_randNat _ _) fun _ => ?_
    refine gtotal_bind (gtotal_randNat _ _) fun _ => ?_
    exact gtotal_pure _
  · refine gtotal_bind (gtotal_randNat _ _) fun _ => ?_
    refine gtotal_bind (gtotal_randNat _ _) fun _ => ?_
    refine gtotal_bind (gtotal_randNat _ _) fun _ => ?_
    refine gtotal_bind (gtotal_randNat _ _) fun _ => ?_
    exact gtotal_pure _
  · refine gtotal_bind (gtotal_choice (by simp)) fun _ => ?_
    refine gtotal_bind (gtotal_randNat _ _) fun _ => ?_
    refine gtotal_bind (gtotal_choice (by simp)) fun _ => ?_
    exact gtotal_pure _

theorem gtotal_calculate_resource_costs (t : String) (details : List (String × JVal)) :
    GTotal (calculate_resource_costs t details) := by
  unfold calculate_resource_costs
  exact gtotal_bind (gtotal_randInt _ _) (fun _ => gtotal_pure _)

theorem gtotal_calculate_scan_metrics (clock tr : Int) :
    GTotal (calculate_scan_metrics clock tr) := by
  unfold calculate_scan_metrics
  repeat'
    first
      | exact gtotal_pure _
      | exact gtotal_randNat _ _
      | exact gtotal_uniformQ _ _
      | apply gtotal_bind
      | intro _

theorem gtotal_generate_random_regions : GTotal generate_random_regions := by
  unfold generate_random_regions
  apply gtotal_bind_of (fun k => k ≤ 7)
  · exact gtotal_randNat _ _
  · intro o i a j h
    exact (randNat_eq_some h).2.1 (by norm_num)
  · intro k hk
    exact gtotal_sample (by simpa [all_regions] using hk)

theorem generate_random_regions_length {o : Oracle} {i : Nat} {res : List String}
    {j : Nat} (h : generate_random_regions o i = some (res, j)) :
    3 ≤ res.length ∧ res.length ≤ 7 := by
  unfold generate_random_regions at h
  rw [bind_def, bindG_eq_some] at h
  obtain ⟨k, j', hk, hs⟩ := h
  obtain ⟨hk1, hk2, -⟩ := randNat_eq_some hk
  have hk3 := hk2 (by norm_num)
  have hl := sample_eq_some_length hs
  omega

theorem gtotal_generate_resource_reasons {t : String} (ht : t ∈ resource_types)
    (d : Nat) : GTotal (generate_resource_reasons t d) := by
  unfold generate_resource_reasons
  apply gtotal_bind (gtotal_uniformQ _ _)
  intro u1
  apply gtotal_bind (gtotal_uniformQ _ _)
  intro u2
  apply gtotal_bind (gtotal_uniformQ _ _)
  intro u3
  apply gtotal_bind_of (fun res => res.length = 3)
  · exact gtotal_reasonsFor _ _ _ _ _
  · intro o i a j h
    exact reasonsFor_length ht h
  · intro res hres
    apply gtotal_bind_of (fun k => k ≤ 3)
    · exact gtotal_randNat _ _
    · intro o i a j h
      exact (randNat_eq_some h).2.1 (by norm_num)
    · intro k hk
      exact gtotal_sample (by omega)

/-- The account tables built by `generate_sample_data` have a nonempty key
list, a nonempty region list per account, and a name for every account id. -/
def AccountsOK (accounts : List (String × List String))
    (account_names : List (String × String)) : Prop :=
  accounts.map Prod.fst ≠ [] ∧
  (∀ p ∈ accounts, p.2 ≠ []) ∧
  (∀ k ∈ accounts.map Prod.fst, (dlookup account_names k).isSome = true)

theorem gtotal_genOneResource {accounts : List (String × List String)}
    {account_names : List (String × String)}
    (hok : AccountsOK accounts account_names) {t : String}
    (ht : t ∈ resource_types) (clock : Int) (i : Nat) :
    GTotal (genOneResource clock accounts account_names t i) := by
  obtain ⟨hne, hreg, hnames⟩ := hok
  unfold genOneResource
  apply gtotal_bind_of (fun a => a ∈ accounts.map Prod.fst)
  · exact gtotal_choice hne
  · intro o i a j h
    exact (choice_eq_some h).1
  · intro account_id hacc
    apply gtotal_bind_of (fun regions => regions ≠ [])
    · exact gtotal_dictIndex (dlookup_isSome_of_mem_keys hacc)
    · intro o i v j h
      exact hreg _ (dlookup_mem (dictIndex_eq_some h).1)
    · intro regions hregne
      apply gtotal_bind (gtotal_choice hregne)
      intro region
      apply gtotal_bind (gtotal_generate_resource_details _ _)
      intro details
      apply gtotal_bind (gtotal_randNat _ _)
      intro idn
      apply gtotal_bind (gtotal_generate_resource_name _)
      intro rname
      apply gtotal_bind (gtotal_dictIndex (hnames _ hacc))
      intro account_name
      apply gtotal_bind (gtotal_randNat _ _)
      intro lud
      apply gtotal_bind (gtotal_uniformQ _ _)
      intro savings
      apply gtotal_bind (gtotal_generate_resource_reasons ht _)
      intro reasons
      apply gtotal_bind (gtotal_calculate_resource_costs _ _)
      intro costs
      exact gtotal_pure _

theorem gtotal_genInner {accounts : List (String × List String)}
    {account_names : List (String × String)}
    (hok : AccountsOK accounts account_names) {t : String}
    (ht : t ∈ resource_types) (clock : Int) :
    ∀ (k i : Nat) (res : List Resource) (sm : List (String × JVal)),
      GTotal (genInner clock accounts account_names t k i res sm)
  | 0, _, _, _ => gtotal_pure _
  | k + 1, i, res, sm => by
    unfold genInner
    apply gtotal_bind (gtotal_genOneResource hok ht clock i)
    intro r
    exact gtotal_genInner hok ht clock k (i + 1) (res ++ [r]) (bumpRBT sm t)

theorem gtotal_genLoop {accounts : List (String × List String)}
    {account_names : List (String × String)}
    (hok : AccountsOK accounts account_names) (clock : Int) :
    ∀ (ts : List String), (∀ t ∈ ts, t ∈ resource_types) →
      ∀ (res : List Resource) (sm : List (String × JVal)),
        GTotal (genLoop clock accounts account_names ts res sm)
  | [], _, _, _ => gtotal_pure _
  | t :: ts, hts, res, sm => by
    unfold genLoop
    apply gtotal_bind (gtotal_randNat _ _)
    intro num
    apply gtotal_bind (gtotal_genInner hok (hts t (by simp)) clock num 0 res sm)
    intro p
    exact gtotal_genLoop hok clock ts (fun t' ht' => hts t' (by simp [ht'])) p.1 p.2

theorem gtotal_finalizeData (clock : Int) (accounts : List (String × List String))
    (account_names : List (String × String)) (resources : List Resource)
    (sm : List (String × JVal)) :
    GTotal (finalizeData clock accounts account_names resources sm) := by
  unfold finalizeData
  apply gtotal_bind (gtotal_calculate_scan_metrics _ _)
  intro m
  exact gtotal_pure _

theorem gtotal_generate_sample_data (clock : Int) :
    GTotal (generate_sample_data clock) := by
  unfold generate_sample_data
  apply gtotal_bind_of (fun r => r ≠ [])
  · exact gtotal_generate_random_regions
  · intro o i a j h
    have h3 := (generate_random_regions_length h).1
    intro hnil
    rw [hnil] at h3
    simp at h3
  · intro r1 h1
    apply gtotal_bind_of (fun r => r ≠ [])
    · exact gtotal_generate_random_regions
    · intro o i a j h
      have h3 := (generate_random_regions_length h).1
      intro hnil
      rw [hnil] at h3
      simp at h3
    · intro r2 h2
      apply gtotal_bind_of (fun r => r ≠ [])
      · exact gtotal_generate_random_regions
      · intro o i a j h
        have h3 := (generate_random_regions_length h).1
        intro hnil
        rw [hnil] at h3
        simp at h3
      · intro r3 h3
        have hok : AccountsOK
            [("123456789012", r1), ("234567890123", r2), ("345678901234", r3)]
            [("123456789012", "Production"), ("234567890123", "Staging"),
             ("345678901234", "Development")] := by
          refine ⟨by simp, ?_, ?_⟩
          · intro p hp
            simp at hp
            rcases hp with hp | hp | hp <;> (rw [hp]; assumption)
          · intro k hk
            simp at hk
            rcases hk with hk | hk | hk <;> (subst hk; simp [dlookup])
        apply gtotal_bind (gtotal_genLoop hok clock resource_types (fun _ ht => ht) [] _)
        intro p
        exact gtotal_finalizeData _ _ _ _ _

/-! ### Shape of a successful run -/

theorem genOneResource_type {clock : Int} {accounts : List (String × List String)}
    {account_names : List (String × String)} {t : String} {i : Nat} {o : Oracle}
    {n : Nat} {r : Resource} {m : Nat}
    (h : genOneResource clock accounts account_names t i o n = some (r, m)) :
    r.type = t := by
  unfold genOneResource at h
  simp only [bind_def, bindG_eq_some, pure_def, pureG_eq_some] at h
  obtain ⟨a1, n1, -, a2, n2, -, a3, n3, -, a4, n4, -, a5, n5, -, a6, n6, -, a7, n7,
    -, a8, n8, -, a9, n9, -, a10, n10, -, a11, n11, -, hr⟩ := h
  simp only [Prod.mk.injEq] at hr
  rw [hr.1]

theorem genInner_spec {clock : Int} {accounts : List (String × List String)}
    {account_names : List (String × String)} {t : String} :
    ∀ (k : Nat) {i : Nat} {res : List Resource} {sm : List (String × JVal)}
      {o : Oracle} {n : Nat} {out : List Resource × List (String × JVal)} {m : Nat},
      genInner clock accounts account_names t k i res sm o n = some (out, m) →
      ∃ new, out.1 = res ++ new ∧ new.length = k ∧ ∀ r ∈ new, Resource.type r = t := by
  intro k
  induction k with
  | zero =>
    intro i res sm o n out m h
    simp only [genInner, pure_def, pureG_eq_some, Prod.mk.injEq] at h
    obtain ⟨hout, -⟩ := h
    exact ⟨[], by simp [hout], rfl, by simp⟩
  | succ k ih =>
    intro i res sm o n out m h
    unfold genInner at h
    rw [bind_def, bindG_eq_some] at h
    obtain ⟨r, n1, hr, hrest⟩ := h
    obtain ⟨new, hout, hlen, htypes⟩ := ih hrest
    refine ⟨r :: new, ?_, by simp [hlen], ?_⟩
    · rw [hout]
      simp
    · intro r' hr'
      rcases List.mem_cons.mp hr' with rfl | hmem
      · exact genOneResource_type hr
      · exact htypes r' hmem

/-- One outer-loop iteration produces between 5 and 15 resources, all of
its resource type. -/
def BlockOK (t : String) (b : List Resource) : Prop :=
  5 ≤ b.length ∧ b.length ≤ 15 ∧ ∀ r ∈ b, Resource.type r = t

theorem genLoop_spec {clock : Int} {accounts : List (String × List String)}
    {account_names : List (String × String)} :
    ∀ (ts : List String) {res : List Resource} {sm : List (String × JVal)}
      {o : Oracle} {n : Nat} {out : List Resource × List (String × JVal)} {m : Nat},
      genLoop clock accounts account_names ts res sm o n = some (out, m) →
      ∃ blocks : List (List Resource),
        out.1 = res ++ blocks.flatten ∧
        List.Forall₂ BlockOK ts blocks := by
  intro ts
  induction ts with
  | nil =>
    intro res sm o n out m h
    simp only [genLoop, pure_def, pureG_eq_some, Prod.mk.injEq] at h
    obtain ⟨hout, -⟩ := h
    exact ⟨[], by simp [hout], List.Forall₂.nil⟩
  | cons t ts ih =>
    intro res sm o n out m h
    unfold genLoop at h
    rw [bind_def, bindG_eq_some] at h
    obtain ⟨num, n1, hnum, h⟩ := h
    rw [bind_def, bindG_eq_some] at h
    obtain ⟨p, n2, hp, h⟩ := h
    obtain ⟨new, hp1, hlen, htypes⟩ := genInner_spec num hp
    obtain ⟨blocks, hout, hforall⟩ := ih h
    obtain ⟨h5, h15i, -⟩ := randNat_eq_some hnum
    have h15 := h15i (by norm_num)
    refine ⟨new :: blocks, ?_, ?_⟩
    · rw [hout, hp1]
      simp
    · exact List.Forall₂.cons ⟨by omega, by omega, htypes⟩ hforall

theorem finalizeData_spec {clock : Int} {accounts : List (String × List String)}
    {account_names : List (String × String)} {resources : List Resource}
    {sm : List (String × JVal)} {o : Oracle} {i : Nat} {d : Data} {j : Nat}
    (h : finalizeData clock accounts account_names resources sm o i = some (d, j)) :
    d.unusedResources = resources ∧
    d.accountsAndRegions = accounts ∧
    d.accountNames = account_names ∧
    d.costBreakdown = (resources.foldl breakdownStep ([], zeroCosts)).1 ∧
    d.totalCosts = (resources.foldl breakdownStep ([], zeroCosts)).2 ∧
    dlookup d.scanMetrics "TotalResources" = some (JVal.int (resources.length : Int)) ∧
    dlookup d.scanMetrics "ResourcesByType" = some (JVal.obj []) := by
  unfold finalizeData at h
  simp only [bind_def, bindG_eq_some, pure_def, pureG_eq_some] at h
  obtain ⟨m, j', hm, hd⟩ := h
  simp only [calculate_scan_metrics, bind_def, bindG, pure_def, pureG, randNat,
    uniformQ, Option.some.injEq, Prod.mk.injEq] at hm
  obtain ⟨hL, -⟩ := hm
  subst hL
  simp only [Prod.mk.injEq] at hd
  obtain ⟨hd, -⟩ := hd
  subst hd
  refine ⟨rfl, rfl, rfl, rfl, rfl, ?_, ?_⟩
  · simp [dictUpdate, dlookup_dictSet_same, dlookup_dictSet_ne, getJ, jToInt]
  · simp [dictUpdate, dlookup_dictSet_same, dlookup_dictSet_ne]

theorem generate_sample_data_spec {clock : Int} {o : Oracle} {i : Nat} {d : Data}
    {j : Nat} (h : generate_sample_data clock o i = some (d, j)) :
    d.costBreakdown = (d.unusedResources.foldl breakdownStep ([], zeroCosts)).1 ∧
    d.totalCosts = (d.unusedResources.foldl breakdownStep ([], zeroCosts)).2 ∧
    dlookup d.scanMetrics "TotalResources" =
      some (JVal.int (d.unusedResources.length : Int)) ∧
    dlookup d.scanMetrics "ResourcesByType" = some (JVal.obj []) ∧
    ∃ blocks : List (List Resource),
      d.unusedResources = blocks.flatten ∧
      List.Forall₂ BlockOK resource_types blocks := by
  unfold generate_sample_data at h
  simp only [bind_def, bindG_eq_some] at h
  obtain ⟨r1, i1, -, r2, i2, -, r3, i3, -, p, i4, hp, hfin⟩ := h
  obtain ⟨hu, -, -, hbd, htc, htr, hrbt⟩ := finalizeData_spec hfin
  obtain ⟨blocks, hres, hforall⟩ := genLoop_spec resource_types hp
  rw [hu]
  exact ⟨hbd, htc, htr, hrbt, blocks, by simpa using hres, hforall⟩

/-! ### The cost-grouping loop computes exact per-type and overall sums -/

/-- Sum of one cost period over a list of resources. -/
def sumBy (rs : List Resource) (f : Costs → Rat) : Rat :=
  (rs.map fun r => f r.costs).sum

/-- Key list of a dict built by inserting elements in order: first
occurrences, in order of first occurrence (Python dict key order). -/
def pyDedup (l : List String) : List String :=
  l.foldl (fun acc a => if a ∈ acc then acc else acc ++ [a]) []

/-- A `CostBreakdown` entry holds, for each period, the exact sum of that
period over the resources of its type. -/
def EntrySums (rs : List Resource) (e : CostEntry) : Prop :=
  e.hourly = sumBy (rs.filter fun r => r.type == e.type) Costs.hourly ∧
  e.daily = sumBy (rs.filter fun r => r.type == e.type) Costs.daily ∧
  e.monthly = sumBy (rs.filter fun r => r.type == e.type) Costs.monthly ∧
  e.yearly = sumBy (rs.filter fun r => r.type == e.type) Costs.yearly ∧
  e.lifetime = sumBy (rs.filter fun r => r.type == e.type) Costs.lifetime

/-- The five overall period sums over a resource list. -/
def totalsOf (rs : List Resource) : Costs :=
  ⟨sumBy rs Costs.hourly, sumBy rs Costs.daily, sumBy rs Costs.monthly,
   sumBy rs Costs.yearly, sumBy rs Costs.lifetime⟩

theorem mem_foldl_dedup (l : List String) :
    ∀ (acc : List String) (x : String),
      (x ∈ l.foldl (fun acc a => if a ∈ acc then acc else acc ++ [a]) acc) ↔
        x ∈ acc ∨ x ∈ l := by
  induction l with
  | nil => intro acc x; simp
  | cons a l ih =>
    intro acc x
    simp only [List.foldl_cons]
    rw [ih]
    by_cases h : a ∈ acc
    · rw [if_pos h]
      simp only [List.mem_cons]
      constructor
      · tauto
      · rintro (hx | rfl | hx) <;> tauto
    · rw [if_neg h]
      simp only [List.mem_append, List.mem_singleton, List.mem_cons]
      tauto

theorem mem_pyDedup {x : String} {l : List String} : x ∈ pyDedup l ↔ x ∈ l := by
  unfold pyDedup
  rw [mem_foldl_dedup]
  simp

theorem pyDedup_append (l : List String) (a : String) :
    pyDedup (l ++ [a]) = if a ∈ pyDedup l then pyDedup l else pyDedup l ++ [a] := by
  unfold pyDedup
  rw [List.foldl_append]
  rfl

theorem modify_type (e : CostEntry) (r : Resource) :
    (if e.type == r.type then addPeriods e r.costs else e).type = e.type := by
  split
  · rfl
  · rfl

theorem map_type_modify (bd : List CostEntry) (r : Resource) :
    ((bd.map fun e => if e.type == r.type then addPeriods e r.costs else e).map
      CostEntry.type) = bd.map CostEntry.type := by
  rw [List.map_map]
  exact List.map_congr_left fun e _ => modify_type e r

theorem any_type_iff (bd : List CostEntry) (t : String) :
    (bd.any fun e => e.type == t) = true ↔ t ∈ bd.map CostEntry.type := by
  rw [List.any_eq_true, List.mem_map]
  constructor
  · rintro ⟨e, he, hbeq⟩
    exact ⟨e, he, by simpa using hbeq⟩
  · rintro ⟨e, he, hty⟩
    exact ⟨e, he, by simp [hty]⟩

theorem sumBy_append (rs1 rs2 : List Resource) (f : Costs → Rat) :
    sumBy (rs1 ++ rs2) f = sumBy rs1 f + sumBy rs2 f := by
  simp [sumBy]

theorem sumBy_single (r : Resource) (f : Costs → Rat) : sumBy [r] f = f r.costs := by
  simp [sumBy]

/-- Invariant carried by the grouping loop: after processing `rs`, the
breakdown's key list is the first-occurrence key list of the types of `rs`,
every entry holds the per-type sums, and the totals hold the overall sums. -/
def BreakdownInv (rs : List Resource) (acc : List CostEntry × Costs) : Prop :=
  acc.1.map CostEntry.type = pyDedup (rs.map Resource.type) ∧
  (∀ e ∈ acc.1, EntrySums rs e) ∧
  acc.2 = totalsOf rs

theorem entrySums_append_of_ne {rs : List Resource} {e : CostEntry} {r : Resource}
    (h : EntrySums rs e) (hne : r.type ≠ e.type) : EntrySums (rs ++ [r]) e := by
  have hfilter : (rs ++ [r]).filter (fun x => x.type == e.type) =
      rs.filter fun x => x.type == e.type := by
    rw [List.filter_append]
    simp [List.filter_singleton, hne]
  unfold EntrySums at h ⊢
  rw [hfilter]
  exact h

theorem entrySums_append_of_eq {rs : List Resource} {e : CostEntry} {r : Resource}
    (h : EntrySums rs e) (heq : e.type = r.type) :
    EntrySums (rs ++ [r]) (addPeriods e r.costs) := by
  have htype : (addPeriods e r.costs).type = e.type := rfl
  have hfilter : (rs ++ [r]).filter (fun x => x.type == e.type) =
      (rs.filter fun x => x.type == e.type) ++ [r] := by
    rw [List.filter_append]
    simp [List.filter_singleton, heq.symm]
  obtain ⟨h1, h2, h3, h4, h5⟩ := h
  unfold EntrySums
  rw [htype, hfilter]
  refine ⟨?_, ?_, ?_, ?_, ?_⟩ <;>
    (rw [sumBy_append, sumBy_single]; simp only [addPeriods, h1, h2, h3, h4, h5])

theorem breakdownStep_inv {rs : List Resource} {acc : List CostEntry × Costs}
    (h : BreakdownInv rs acc) (r : Resource) :
    BreakdownInv (rs ++ [r]) (breakdownStep acc r) := by
  obtain ⟨bd, tot⟩ := acc
  obtain ⟨h1, h2, h3⟩ := h
  dsimp only at h1 h2 h3
  have hmaptypes : (rs ++ [r]).map Resource.type = rs.map Resource.type ++ [r.type] := by
    simp
  by_cases hmem : r.type ∈ bd.map CostEntry.type
  · have hany : (bd.any fun e => e.type == r.type) = true := (any_type_iff bd r.type).mpr hmem
    have hbd : (breakdownStep (bd, tot) r).1 =
        bd.map fun e => if e.type == r.type then addPeriods e r.costs else e := by
      simp [breakdownStep, hany]
    have htot : (breakdownStep (bd, tot) r).2 = addTotals tot r.costs := by
      simp [breakdownStep]
    refine ⟨?_, ?_, ?_⟩
    · rw [hbd, map_type_modify, h1, hmaptypes, pyDedup_append, if_pos (h1 ▸ hmem)]
    · intro e' he'
      rw [hbd] at he'
      obtain ⟨e, he, rfl⟩ := List.mem_map.mp he'
      by_cases hty : e.type = r.type
      · have hbeq : (e.type == r.type) = true := by simp [hty]
        simp only [hbeq, if_true]
        exact entrySums_append_of_eq (h2 e he) hty
      · have hbeq : (e.type == r.type) = false := by simp [hty]
        simp only [hbeq, Bool.false_eq_true, if_false]
        exact entrySums_append_of_ne (h2 e he) fun hc => hty hc.symm
    · rw [htot, h3]
      unfold addTotals totalsOf
      simp [sumBy_append, sumBy_single]
  · have hany : (bd.any fun e => e.type == r.type) = false := by
      cases hb : bd.any fun e => e.type == r.type
      · rfl
      · exact absurd ((any_type_iff bd r.type).mp hb) hmem
    have hbd : (breakdownStep (bd, tot) r).1 =
        (bd ++ [(⟨r.type, 0, 0, 0, 0, 0⟩ : CostEntry)]).map
          fun e => if e.type == r.type then addPeriods e r.costs else e := by
      simp [breakdownStep, hany]
    have htot : (breakdownStep (bd, tot) r).2 = addTotals tot r.costs := by
      simp [breakdownStep]
    have hnotin : Resource.type r ∉ rs.map Resource.type := by
      intro hc
      exact hmem (h1 ▸ mem_pyDedup.mpr hc)
    refine ⟨?_, ?_, ?_⟩
    · rw [hbd, map_type_modify, List.map_append, h1, hmaptypes, pyDedup_append,
        if_neg (fun hc => hmem (h1 ▸ hc))]
      simp
    · intro e' he'
      rw [hbd] at he'
      obtain ⟨e, he, rfl⟩ := List.mem_map.mp he'
      rcases List.mem_append.mp he with he | he
      · have hty : e.type ≠ r.type := fun hc => hmem (List.mem_map.mpr ⟨e, he, hc⟩)
        have hbeq : (e.type == r.type) = false := by simp [hty]
        simp only [hbeq, Bool.false_eq_true, if_false]
        exact entrySums_append_of_ne (h2 e he) fun hc => hty hc.symm
      · rcases List.mem_singleton.mp he with rfl
        have hbeq : ((⟨r.type, 0, 0, 0, 0, 0⟩ : CostEntry).type == r.type) = true := by simp
        simp only [hbeq, if_true]
        have hnil : (rs.filter fun x => x.type == r.type) = [] := by
          rw [List.filter_eq_nil_iff]
          intro x hx
          simp only [beq_iff_eq]
          exact fun hc => hnotin (List.mem_map.mpr ⟨x, hx, hc⟩)
        unfold EntrySums
        have hfilter : (rs ++ [r]).filter
            (fun x => x.type == (addPeriods ⟨r.type, 0, 0, 0, 0, 0⟩ r.costs).type) = [r] := by
          rw [show (addPeriods ⟨r.type, 0, 0, 0, 0, 0⟩ r.costs).type = r.type from rfl,
            List.filter_append, hnil]
          simp [List.filter_singleton]
        rw [hfilter]
        refine ⟨?_, ?_, ?_, ?_, ?_⟩ <;> simp [addPeriods, sumBy_single]
    · rw [htot, h3]
      unfold addTotals totalsOf
      simp [sumBy_append, sumBy_single]

theorem breakdown_foldl (rs : List Resource) :
    BreakdownInv rs (rs.foldl breakdownStep ([], zeroCosts)) := by
  induction rs using List.reverseRecOn with
  | nil =>
    refine ⟨rfl, ?_, ?_⟩
    · intro e he
      simp at he
    · simp [totalsOf, sumBy, zeroCosts]
  | append_singleton rs r ih =>
    rw [List.foldl_append]
    exact breakdownStep_inv ih r

/-! ### Per-type counts of the generated resource list -/

/-- Number of generated resources of a given type. -/
def typeCount (rs : List Resource) (t : String) : Nat :=
  (rs.filter fun r => r.type == t).length

theorem typeCount_append (l1 l2 : List Resource) (t : String) :
    typeCount (l1 ++ l2) t = typeCount l1 t + typeCount l2 t := by
  simp [typeCount, List.filter_append]

theorem typeCount_of_all_eq {b : List Resource} {t' : String}
    (hb : ∀ r ∈ b, Resource.type r = t') (t : String) :
    typeCount b t = if t' = t then b.length else 0 := by
  induction b with
  | nil => simp [typeCount]
  | cons r b ih =>
    have hr : r.type = t' := hb r (by simp)
    have hb' : ∀ x ∈ b, Resource.type x = t' := fun x hx => hb x (by simp [hx])
    specialize ih hb'
    by_cases h : t' = t
    · have hbeq : (r.type == t) = true := by simp [hr, h]
      simp only [typeCount, List.filter_cons, hbeq, if_true, List.length_cons, h,
        if_pos] at ih ⊢
      omega
    · have hbeq : (r.type == t) = false := by simp [hr, h]
      simp only [typeCount, List.filter_cons, hbeq, Bool.false_eq_true, if_false,
        h] at ih ⊢
      exact ih

theorem typeCount_flatten_not_mem :
    ∀ {ts : List String} {blocks : List (List Resource)},
      List.Forall₂ BlockOK ts blocks → ∀ {t : String}, t ∉ ts →
        typeCount blocks.flatten t = 0 := by
  intro ts blocks hf
  induction hf with
  | nil =>
    intro t _
    simp [typeCount]
  | @cons a b ts' blocks' hab hf' ih =>
    intro t ht
    rw [List.flatten_cons, typeCount_append]
    have h1 : typeCount b t = 0 := by
      rw [typeCount_of_all_eq hab.2.2, if_neg]
      intro hc
      apply ht
      rw [← hc]
      exact List.mem_cons_self a ts'
    have h2 : typeCount blocks'.flatten t = 0 :=
      ih fun hc => ht (List.mem_cons_of_mem a hc)
    omega

theorem typeCount_flatten_mem :
    ∀ {ts : List String} {blocks : List (List Resource)},
      List.Forall₂ BlockOK ts blocks → ts.Nodup → ∀ {t : String}, t ∈ ts →
        5 ≤ typeCount blocks.flatten t ∧ typeCount blocks.flatten t ≤ 15 := by
  intro ts blocks hf
  induction hf with
  | nil =>
    intro _ t ht
    simp at ht
  | @cons a b ts' blocks' hab hf' ih =>
    intro hnd t ht
    obtain ⟨hna, hnd'⟩ := List.nodup_cons.mp hnd
    rw [List.flatten_cons, typeCount_append]
    rcases List.mem_cons.mp ht with rfl | hmem
    · have h0 : typeCount blocks'.flatten t = 0 := typeCount_flatten_not_mem hf' hna
      have hc : typeCount b t = b.length := by
        rw [typeCount_of_all_eq hab.2.2, if_pos rfl]
      obtain ⟨h5, h15, -⟩ := hab
      omega
    · have h0 : typeCount b t = 0 := by
        rw [typeCount_of_all_eq hab.2.2, if_neg]
        intro hc
        apply hna
        rw [hc]
        exact hmem
      obtain ⟨h5, h15⟩ := ih hnd' hmem
      omega

theorem type_mem_flatten :
    ∀ {ts : List String} {blocks : List (List Resource)},
      List.Forall₂ BlockOK ts blocks →
        ∀ r ∈ blocks.flatten, Resource.type r ∈ ts := by
  intro ts blocks hf
  induction hf with
  | nil =>
    intro r hr
    simp at hr
  | @cons a b ts' blocks' hab hf' ih =>
    intro r hr
    rw [List.flatten_cons] at hr
    rcases List.mem_append.mp hr with hr | hr
    · rw [hab.2.2 r hr]
      exact List.mem_cons_self a ts'
    · exact List.mem_cons_of_mem a (ih r hr)

/-! ### A concrete reference run -/

/-- Reference oracle (constant zero stream) used to exhibit concrete runs. -/
def oracle0 : Oracle := fun _ => 0

/-- Reference clock value. -/
def clock0 : Int := 0

/-- Report produced by the reference run (a run that succeeds, by
`gtotal_generate_sample_data`). -/
def data0 : Data := (generate_sample_data clock0 oracle0 0).elim default Prod.fst

/-- Final oracle position of the reference run. -/
def end0 : Nat := (generate_sample_data clock0 oracle0 0).elim 0 Prod.snd

theorem run0_eq : generate_sample_data clock0 oracle0 0 = some (data0, end0) := by
  have h := gtotal_generate_sample_data clock0 oracle0 0
  cases hc : generate_sample_data clock0 oracle0 0 with
  | none =>
    rw [hc] at h
    simp at h
  | some p =>
    unfold data0 end0
    rw [hc]
    rfl

instance (rs : List Resource) (e : CostEntry) : Decidable (EntrySums rs e) := by
  unfold EntrySums
  infer_instance

/-! ### The claims -/

/-- C1: in every successful run, every `CostBreakdown` entry holds, for each
of the five cost periods, the exact sum of that period over the
`UnusedResources` records of the entry's type, and the breakdown's type list
is exactly the list of types present, one entry per present type (in
first-occurrence order). -/
theorem claim_C1 (clock : Int) (o : Oracle) (i : Nat) (d : Data) (j : Nat)
    (h : generate_sample_data clock o i = some (d, j)) :
    d.costBreakdown.map CostEntry.type =
      pyDedup (d.unusedResources.map Resource.type) ∧
    d.costBreakdown.all (fun e => decide (EntrySums d.unusedResources e)) = true := by
  obtain ⟨hbd, -, -, -, -⟩ := generate_sample_data_spec h
  obtain ⟨h1, h2, -⟩ := breakdown_foldl d.unusedResources
  rw [hbd]
  refine ⟨h1, List.all_eq_true.mpr fun e he => ?_⟩
  exact decide_eq_true (h2 e he)

/-- Witness for C1 at the reference run. -/
theorem claim_C1_witness :
    data0.costBreakdown.map CostEntry.type =
      pyDedup (data0.unusedResources.map Resource.type) ∧
    data0.costBreakdown.all (fun e => decide (EntrySums data0.unusedResources e)) = true :=
  claim_C1 clock0 oracle0 0 data0 end0 run0_eq

/-- C2: in every successful run, `TotalCosts` holds, for each of the five
cost periods, the exact sum of that period over all `UnusedResources`
records. -/
theorem claim_C2 (clock : Int) (o : Oracle) (i : Nat) (d : Data) (j : Nat)
    (h : generate_sample_data clock o i = some (d, j)) :
    d.totalCosts = totalsOf d.unusedResources := by
  obtain ⟨-, htc, -, -, -⟩ := generate_sample_data_spec h
  obtain ⟨-, -, h3⟩ := breakdown_foldl d.unusedResources
  rw [htc, h3]

/-- Witness for C2 at the reference run. -/
theorem claim_C2_witness : data0.totalCosts = totalsOf data0.unusedResources :=
  claim_C2 clock0 oracle0 0 data0 end0 run0_eq

/-- C3: in every successful run, `ScanMetrics.TotalResources` in the final
document equals the length of `UnusedResources`. -/
theorem claim_C3 (clock : Int) (o : Oracle) (i : Nat) (d : Data) (j : Nat)
    (h : generate_sample_data clock o i = some (d, j)) :
    dlookup d.scanMetrics "TotalResources" =
      some (JVal.int (d.unusedResources.length : Int)) :=
  (generate_sample_data_spec h).2.2.1

/-- Witness for C3 at the reference run. -/
theorem claim_C3_witness :
    dlookup data0.scanMetrics "TotalResources" =
      some (JVal.int (data0.unusedResources.length : Int)) :=
  claim_C3 clock0 oracle0 0 data0 end0 run0_eq

/-- C4: the document serialized by `main` has exactly the six declared
top-level keys, in insertion order, and `main` writes exactly the one
serialized document of the run it performs. -/
theorem claim_C4 (clock : Int) (o : Oracle) (d : Data) (j : Nat)
    (h : generate_sample_data clock o 0 = some (d, j)) :
    d.toDoc.map Prod.fst =
      ["ScanMetrics", "AccountsAndRegions", "AccountNames", "UnusedResources",
       "CostBreakdown", "TotalCosts"] ∧
    main_output clock o = some d.toDoc := by
  constructor
  · rfl
  · unfold main_output
    rw [h]
    rfl

/-- Witness for C4 at the reference run. -/
theorem claim_C4_witness :
    data0.toDoc.map Prod.fst =
      ["ScanMetrics", "AccountsAndRegions", "AccountNames", "UnusedResources",
       "CostBreakdown", "TotalCosts"] ∧
    main_output clock0 oracle0 = some data0.toDoc :=
  claim_C4 clock0 oracle0 data0 end0 run0_eq

/-- C5 (contradicted by the code, see C8): the claim says the final
`ScanMetrics.ResourcesByType` maps each present type to its count; in fact
in every successful run the final `ResourcesByType` is the empty dict while
at least five `EC2 Instance` records are present, so the claimed mapping is
absent.  The counts accumulated at lines 419-422 are overwritten by
`update(calculate_scan_metrics(...))`, which returns `ResourcesByType: {}`. -/
theorem claim_C5 (clock : Int) (o : Oracle) (i : Nat) (d : Data) (j : Nat)
    (h : generate_sample_data clock o i = some (d, j)) :
    dlookup d.scanMetrics "ResourcesByType" = some (JVal.obj []) ∧
    5 ≤ typeCount d.unusedResources "EC2 Instance" := by
  obtain ⟨-, -, -, hrbt, blocks, hflat, hforall⟩ := generate_sample_data_spec h
  refine ⟨hrbt, ?_⟩
  rw [hflat]
  exact (typeCount_flatten_mem hforall (by decide) (by decide)).1

/-- Witness for C5 at the reference run. -/
theorem claim_C5_witness :
    dlookup data0.scanMetrics "ResourcesByType" = some (JVal.obj []) ∧
    5 ≤ typeCount data0.unusedResources "EC2 Instance" :=
  claim_C5 clock0 oracle0 0 data0 end0 run0_eq

/-- C6: data generation never fails: `generate_sample_data` succeeds for
every oracle, clock and position; in particular, for every catalog resource
type the reason list built in `generate_resource_reasons` has exactly 3
entries, so `random.sample` with a sample size of 2 or 3 always succeeds.
(The only effect outside the embedding is the single file write in `main`,
which the script performs with no handling, retry or recovery.) -/
theorem claim_C6 :
    (∀ (clock : Int) (o : Oracle) (i : Nat),
      (generate_sample_data clock o i).isSome = true) ∧
    (∀ t : String, t ∈ resource_types →
      ∀ (days_ago : Nat) (c m n : Rat) (o : Oracle) (i : Nat),
        ((reasonsFor t days_ago c m n o i).map fun p => p.1.length) = some 3) := by
  constructor
  · exact fun clock => gtotal_generate_sample_data clock
  · intro t ht days c m n o i
    have htot := gtotal_reasonsFor t days c m n o i
    cases hc : reasonsFor t days c m n o i with
    | none =>
      rw [hc] at htot
      simp at htot
    | some p =>
      simp only [Option.map_some', Option.some.injEq]
      exact reasonsFor_length ht hc

/-- Witness for C6 at a catalog type. -/
theorem claim_C6_witness :
    ("EC2 Instance" ∈ resource_types) ∧
    ((reasonsFor "EC2 Instance" 180 1 1 1 oracle0 0).map fun p => p.1.length) = some 3 :=
  ⟨by decide, claim_C6.2 "EC2 Instance" (by decide) 180 1 1 1 oracle0 0⟩

/-- C7: in every successful run, every record's type is drawn from the
fixed ten-element catalog, and each of the ten catalog types occurs between
5 and 15 times in `UnusedResources`. -/
theorem claim_C7 (clock : Int) (o : Oracle) (i : Nat) (d : Data) (j : Nat)
    (h : generate_sample_data clock o i = some (d, j)) :
    d.unusedResources.all (fun r => decide (Resource.type r ∈ resource_types)) = true ∧
    resource_types.all (fun t => decide (5 ≤ typeCount d.unusedResources t ∧
      typeCount d.unusedResources t ≤ 15)) = true := by
  obtain ⟨-, -, -, -, blocks, hflat, hforall⟩ := generate_sample_data_spec h
  constructor
  · refine List.all_eq_true.mpr fun r hr => ?_
    exact decide_eq_true (type_mem_flatten hforall r (hflat ▸ hr))
  · refine List.all_eq_true.mpr fun t ht => decide_eq_true ?_
    rw [hflat]
    exact typeCount_flatten_mem hforall (by decide) ht

/-- Witness for C7 at the reference run. -/
theorem claim_C7_witness :
    data0.unusedResources.all (fun r => decide (Resource.type r ∈ resource_types)) = true ∧
    resource_types.all (fun t => decide (5 ≤ typeCount data0.unusedResources t ∧
      typeCount data0.unusedResources t ≤ 15)) = true :=
  claim_C7 clock0 oracle0 0 data0 end0 run0_eq

/-- C8: in every successful run, the final `ScanMetrics.ResourcesByType` is
the empty dict: the counts accumulated during generation are replaced when
`ScanMetrics` is `update`d with the result of `calculate_scan_metrics`,
whose `ResourcesByType` field is the empty dict. -/
theorem claim_C8 (clock : Int) (o : Oracle) (i : Nat) (d : Data) (j : Nat)
    (h : generate_sample_data clock o i = some (d, j)) :
    dlookup d.scanMetrics "ResourcesByType" = some (JVal.obj []) :=
  (generate_sample_data_spec h).2.2.2.1

/-- Witness for C8 at the reference run. -/
theorem claim_C8_witness :
    dlookup data0.scanMetrics "ResourcesByType" = some (JVal.obj []) :=
  claim_C8 clock0 oracle0 0 data0 end0 run0_eq

/-- C9: for `IAM User` and `IAM Role` (no branch of
`calculate_resource_costs` handles them), all five returned cost fields are
exactly zero, whatever the details dict and the random draw; such resources
therefore add nothing to `CostBreakdown` or `TotalCosts`. -/
theorem claim_C9 (t : String) (details : List (String × JVal)) (o : Oracle)
    (i : Nat) (ht : t = "IAM User" ∨ t = "IAM Role") :
    (calculate_resource_costs t details o i).map Prod.fst = some zeroCosts := by
  have hbase : baseCosts t details = zeroCosts := by
    rcases ht with rfl | rfl <;> simp [baseCosts]
  unfold calculate_resource_costs
  simp [bind_def, bindG, randInt, pure_def, pureG, hbase, zeroCosts]

/-- Witness for C9 at `IAM User`. -/
theorem claim_C9_witness :
    (("IAM User" : String) = "IAM User" ∨ ("IAM User" : String) = "IAM Role") ∧
    (calculate_resource_costs "IAM User" [] oracle0 0).map Prod.fst = some zeroCosts :=
  ⟨Or.inl rfl, claim_C9 "IAM User" [] oracle0 0 (Or.inl rfl)⟩

/-- Costs returned for an `ELB` resource under the reference oracle (whose
`randint(-1, 3)` draw is `-1`). -/
def cELB : Costs := (calculate_resource_costs "ELB" [] oracle0 0).elim default Prod.fst

/-- Final position of that computation. -/
def jELB : Nat := (calculate_resource_costs "ELB" [] oracle0 0).elim 0 Prod.snd

theorem calc_ELB_eq : calculate_resource_costs "ELB" [] oracle0 0 = some (cELB, jELB) := by
  have h := gtotal_calculate_resource_costs "ELB" [] oracle0 0
  cases hc : calculate_resource_costs "ELB" [] oracle0 0 with
  | none =>
    rw [hc] at h
    simp at h
  | some p =>
    unfold cELB jELB
    rw [hc]
    rfl

/-- C10: every result of `calculate_resource_costs` satisfies
`yearly = monthly * 12` and `lifetime = yearly * r` for the integer `r`
drawn by `randint(-1, 3)` (so `r ∈ [-1, 3]`); and under the reference
oracle the `ELB` costs realize the negative case: a strictly positive
yearly cost with `lifetime = -yearly`. -/
theorem claim_C10 :
    (∀ (t : String) (details : List (String × JVal)) (o : Oracle) (i : Nat)
      (c : Costs) (j : Nat),
      calculate_resource_costs t details o i = some (c, j) →
      c.yearly = c.monthly * 12 ∧
      c.lifetime = c.yearly * ((randIntVal (-1) 3 o i : Int) : Rat) ∧
      -1 ≤ randIntVal (-1) 3 o i ∧ randIntVal (-1) 3 o i ≤ 3) ∧
    ((calculate_resource_costs "ELB" [] oracle0 0).map
      (fun p => decide (0 < p.1.yearly ∧ p.1.lifetime = -p.1.yearly)) = some true) := by
  constructor
  · intro t details o i c j h
    unfold calculate_resource_costs at h
    simp only [bind_def, bindG, randInt, pure_def, pureG, Option.some.injEq,
      Prod.mk.injEq] at h
    obtain ⟨hc, -⟩ := h
    subst hc
    refine ⟨rfl, rfl, ?_, ?_⟩
    · exact (randIntVal_bounds (-1) 3 o i (by norm_num)).1
    · exact (randIntVal_bounds (-1) 3 o i (by norm_num)).2
  · rw [calc_ELB_eq]
    simp only [Option.map_some', Option.some.injEq]
    rw [decide_eq_true_eq]
    simp [cELB, calculate_resource_costs, baseCosts, bind_def, bindG, randInt,
      pure_def, pureG, randIntVal, oracle0, zeroCosts]
    norm_num

/-- Witness for C10 at the `ELB` reference computation. -/
theorem claim_C10_witness :
    cELB.yearly = cELB.monthly * 12 ∧
    cELB.lifetime = cELB.yearly * ((randIntVal (-1) 3 oracle0 0 : Int) : Rat) ∧
    -1 ≤ randIntVal (-1) 3 oracle0 0 ∧ randIntVal (-1) 3 oracle0 0 ≤ 3 :=
  claim_C10.1 "ELB" [] oracle0 0 cELB jELB calc_ELB_eq

end SampleReport
